import Mathlib

/-!
# Verification of the bayanat-cli update/backup/version core

A shallow embedding of `src/bayanat_cli/main.py` and
`src/bayanat_cli/utils/version.py`.  External effects (the filesystem,
subprocess invocations, the target application's flask CLI) are modelled by
an oracle environment; every embedded operation returns the list of external
calls it issued (its trace) together with its result, and exceptions are
modelled with `Except`.  A detail that matters below: `typer.Exit` derives
from `RuntimeError`, hence from `Exception`, so the `except Exception`
handler of the `update` command catches the `typer.Exit(code=1)` raised on
its own validation-failure and lock-failure paths.
-/

namespace BayanatCli

/-! ## String helpers (Python `in`, `split`, `strip`) -/

/-- Python's `needle in hay` on character lists: `needle` occurs contiguously
in `hay`. -/
def isInfixChars (needle : List Char) : List Char → Bool
  | [] => needle.isEmpty
  | c :: rest => needle.isPrefixOf (c :: rest) || isInfixChars needle rest

/-- Python's `pat in hay` for strings. -/
def containsSubstr (hay pat : String) : Bool :=
  isInfixChars pat.data hay.data

/-- Python's `str.strip()`: drop leading and trailing whitespace. -/
def pyStrip (s : String) : String :=
  String.mk
    (((s.data.dropWhile Char.isWhitespace).reverse.dropWhile
      Char.isWhitespace).reverse)

/-! ## Version resolver (`utils/version.py`, `get_bayanat_version`)

Each version source is an external probe.  `subprocess.check_output` either
returns output, fails with `CalledProcessError` (the only exception the
source code catches), or fails with some other exception such as
`FileNotFoundError` when the binary does not exist. -/

/-- Outcome of a `subprocess.check_output` probe. -/
inductive SrcRes
  | ok (stdout : String)
  | cpe
  | raised (e : String)
  deriving DecidableEq

/-- The `project` table of a parsed `pyproject.toml`:
`pyproject_data.get('project', {}).get('name')` and
`pyproject_data['project']['version']` (`none` = `KeyError`). -/
structure TomlProject where
  name : Option String
  version : Option String
  deriving DecidableEq

/-- Outcome of opening and `tomli.load`-ing `pyproject.toml`. The source
catches only `KeyError` and `tomli.TOMLDecodeError`; any other exception
(e.g. `OSError` from `open`) propagates. -/
inductive TomlRes
  | ok (p : TomlProject)
  | decodeError
  | raised (e : String)
  deriving DecidableEq

/-- Oracle for the three version sources of `get_bayanat_version`. -/
structure VersionEnv where
  pkg : SrcRes
  gitTag : SrcRes
  pyprojectIsFile : Bool
  toml : TomlRes
  deriving DecidableEq

/-- Embedding of `get_bayanat_version` (`utils/version.py:5-40`).
`Except.error e` models an exception `e` escaping the function. -/
def get_bayanat_version (env : VersionEnv) : Except String String :=
  match env.pkg with
  | SrcRes.ok out => Except.ok (pyStrip out)
  | SrcRes.raised e => Except.error e
  | SrcRes.cpe =>
    match env.gitTag with
    | SrcRes.ok out => Except.ok (pyStrip out)
    | SrcRes.raised e => Except.error e
    | SrcRes.cpe =>
      if env.pyprojectIsFile then
        match env.toml with
        | TomlRes.raised e => Except.error e
        | TomlRes.decodeError => Except.ok "unknown"
        | TomlRes.ok p =>
          if p.name = some "bayanat" then
            match p.version with
            | some v => Except.ok v
            | none => Except.ok "unknown"
          else Except.ok "unknown"
      else Except.ok "unknown"

/-- The version the project manifest declares, when it resolves
(file present, parses, project name is `bayanat`, version key present). -/
def manifestVersion (env : VersionEnv) : Option String :=
  if env.pyprojectIsFile then
    match env.toml with
    | TomlRes.ok p => if p.name = some "bayanat" then p.version else none
    | _ => none
  else none

/-- The most recent version-control tag, when `git describe` resolves. -/
def gitTagVersion (env : VersionEnv) : Option String :=
  match env.gitTag with
  | SrcRes.ok out => some (pyStrip out)
  | _ => none

/-- Strip one leading `v` from a tag. -/
def stripLeadingV (s : String) : String :=
  match s.data with
  | 'v' :: rest => String.mk rest
  | _ => s

/-- The resolver claim C5 asserts of the code, built from the spec's words:
manifest first (single source of truth when present), then the latest tag
with any leading `v` stripped, else the sentinel `"unknown"`. -/
def resolver_claimed (env : VersionEnv) : String :=
  match manifestVersion env with
  | some v => v
  | none =>
    match gitTagVersion env with
    | some t => stripLeadingV t
    | none => "unknown"

/-- One source outcome in the amended priority-list description. -/
inductive SourceOutcome
  | resolved (v : String)
  | unavailable
  | fatal (e : String)

/-- Walk a priority list of sources: return the first resolved value, stop
with the exception of the first fatally-failing source, and fall back to a
default when every source is unavailable. -/
def firstResolved : List SourceOutcome → String → Except String String
  | [], dflt => Except.ok dflt
  | SourceOutcome.resolved v :: _, _ => Except.ok v
  | SourceOutcome.fatal e :: _, _ => Except.error e
  | SourceOutcome.unavailable :: rest, dflt => firstResolved rest dflt

/-- The runtime-package source as a priority-list entry:
swallowed on `CalledProcessError`, fatal on any other exception. -/
def pkgSource (env : VersionEnv) : SourceOutcome :=
  match env.pkg with
  | SrcRes.ok out => SourceOutcome.resolved (pyStrip out)
  | SrcRes.cpe => SourceOutcome.unavailable
  | SrcRes.raised e => SourceOutcome.fatal e

/-- The git-tag source as a priority-list entry (tag taken verbatim). -/
def tagSource (env : VersionEnv) : SourceOutcome :=
  match env.gitTag with
  | SrcRes.ok out => SourceOutcome.resolved (pyStrip out)
  | SrcRes.cpe => SourceOutcome.unavailable
  | SrcRes.raised e => SourceOutcome.fatal e

/-- The manifest source as a priority-list entry: unavailable when the file
is missing, fails to parse, names a different project, or lacks a version
key; fatal when reading it raises something other than the caught
`KeyError`/`TOMLDecodeError`. -/
def manifestSource (env : VersionEnv) : SourceOutcome :=
  if env.pyprojectIsFile then
    match env.toml with
    | TomlRes.raised e => SourceOutcome.fatal e
    | TomlRes.decodeError => SourceOutcome.unavailable
    | TomlRes.ok p =>
      if p.name = some "bayanat" then
        match p.version with
        | some v => SourceOutcome.resolved v
        | none => SourceOutcome.unavailable
      else SourceOutcome.unavailable
  else SourceOutcome.unavailable

/-- Amended description of the resolver: runtime package first, then the
verbatim latest tag, then the manifest, defaulting to `"unknown"`. -/
def resolver_amended (env : VersionEnv) : Except String String :=
  firstResolved [pkgSource env, tagSource env, manifestSource env] "unknown"

/-- Did this probe fail with an exception the code does not catch? -/
def isRaisedSrc : SrcRes → Bool
  | SrcRes.raised _ => true
  | _ => false

/-- Did the manifest read fail with an uncaught exception? -/
def isRaisedToml : TomlRes → Bool
  | TomlRes.raised _ => true
  | _ => false

/-- No version source fails with an exception the code does not catch. -/
def noFatalSource (env : VersionEnv) : Prop :=
  isRaisedSrc env.pkg = false ∧ isRaisedSrc env.gitTag = false ∧
    isRaisedToml env.toml = false

/-! ## Timestamps and the expected backup path

`backup_database` builds its default output path with
`time.strftime("%Y%m%d_%H%M%S")` and `os.path.join`. -/

/-- A wall-clock instant as `strftime` sees it. -/
structure DateTime where
  year : Nat
  month : Nat
  day : Nat
  hour : Nat
  minute : Nat
  second : Nat
  deriving DecidableEq

/-- The decimal digit character for a value (callers pass values `< 10`). -/
def digitChar : Nat → Char
  | 0 => '0' | 1 => '1' | 2 => '2' | 3 => '3' | 4 => '4'
  | 5 => '5' | 6 => '6' | 7 => '7' | 8 => '8' | _ => '9'

/-- Two-digit zero-padded decimal rendering (`%m`, `%d`, `%H`, `%M`, `%S`). -/
def pad2 (n : Nat) : List Char :=
  [digitChar (n / 10), digitChar (n % 10)]

/-- Four-digit zero-padded decimal rendering (`%Y` for years 1000-9999). -/
def pad4 (n : Nat) : List Char :=
  [digitChar (n / 1000), digitChar (n / 100 % 10), digitChar (n / 10 % 10),
    digitChar (n % 10)]

/-- Characters of `time.strftime("%Y%m%d_%H%M%S")`. -/
def strftimeChars (t : DateTime) : List Char :=
  pad4 t.year ++ (pad2 t.month ++ (pad2 t.day ++ ('_' ::
    (pad2 t.hour ++ (pad2 t.minute ++ pad2 t.second)))))

/-- `time.strftime("%Y%m%d_%H%M%S")` as a string. -/
def strftimeYmdHMS (t : DateTime) : String :=
  String.mk (strftimeChars t)

/-- `os.path.join` for the plain relative components the tool uses. -/
def pathJoin (a b : String) : String := a ++ "/" ++ b

/-- The `expected_backup_path` computed by `backup_database`
(`main.py:84-93`): the caller-supplied output path if any, otherwise
`<app_dir>/backups/<timestamp>_bayanat_backup.dump`. -/
def expected_backup_path (app_dir : String) (output : Option String)
    (now : DateTime) : String :=
  match output with
  | some o => o
  | none => pathJoin (pathJoin app_dir "backups")
      (strftimeYmdHMS now ++ "_bayanat_backup.dump")

/-- Count of decimal-digit characters in a string. -/
def digitCount (s : String) : Nat := s.data.countP (fun c => c.isDigit)

/-- Component ranges a real `time.strftime` timestamp satisfies. -/
def TimeBounds (t : DateTime) : Prop :=
  1000 ≤ t.year ∧ t.year ≤ 9999 ∧ 1 ≤ t.month ∧ t.month ≤ 12 ∧
    1 ≤ t.day ∧ t.day ≤ 31 ∧ t.hour ≤ 23 ∧ t.minute ≤ 59 ∧ t.second ≤ 60

/-- Chronological (lexicographic componentwise) strict order on instants. -/
def dtLt (a b : DateTime) : Prop :=
  a.year < b.year ∨ (a.year = b.year ∧ (a.month < b.month ∨ (a.month = b.month ∧
    (a.day < b.day ∨ (a.day = b.day ∧ (a.hour < b.hour ∨ (a.hour = b.hour ∧
      (a.minute < b.minute ∨ (a.minute = b.minute ∧ a.second < b.second)))))))))

instance (a b : DateTime) : Decidable (dtLt a b) := by
  unfold dtLt; infer_instance

instance (t : DateTime) : Decidable (TimeBounds t) := by
  unfold TimeBounds; infer_instance

/-! ## The orchestrator model (`main.py`)

External calls are recorded in a trace.  Flask CLI invocations go through
`run_flask_command` (which never raises: it converts every exception into a
`(False, message)` result); git/pip/virtualenv invocations go through
`run_command` (which raises `typer.Exit(code=1)` on failure). -/

/-- A flask CLI subcommand issued through `run_flask_command`. -/
inductive FlaskCmd
  | lock
  | unlock
  | backupDb (path : String)
  | restoreDb (path : String)
  | setVersion (v : String)
  | getVersion
  | migrateDry
  | migrateApply
  deriving DecidableEq

/-- An external command issued through `run_command` (or, for the service
restart, directly through `subprocess.run`). -/
inductive Cmd
  | gitVersion
  | gitClone
  | gitFetch
  | gitCheckout
  | gitResetRemote
  | gitPull
  | gitResetPrev
  | virtualenvCreate
  | pipUpgrade
  | pipMain
  | pipDev
  deriving DecidableEq

/-- One externally visible call. -/
inductive Call
  | flask (c : FlaskCmd)
  | cmd (c : Cmd)
  | systemctl (service : String)
  deriving DecidableEq

/-- A Python exception: `typer.Exit(code)` or a generic `Exception`.  Both
derive from `Exception`, so both are caught by `except Exception`. -/
inductive Exc
  | exit (code : Nat)
  | err (msg : String)
  deriving DecidableEq

/-- How the `update` process ends. -/
inductive Outcome
  | success
  | exited (code : Nat)
  deriving DecidableEq

/-- The filesystem as the tool queries it. -/
structure FS where
  isFile : String → Bool
  isDir : String → Bool
  pathExists : String → Bool

/-- Oracle for one run: responses of every external collaborator. -/
structure Env where
  fs : FS
  cwd : String
  flask : FlaskCmd → Bool × String
  runCmd : Cmd → Option String
  pyVerOk : Bool
  systemctlPresent : Bool
  restartExit0 : Bool
  verBefore : VersionEnv
  verAfter : VersionEnv
  now : DateTime

/-- Options of the `update` command. -/
structure Flags where
  skip_git : Bool
  skip_deps : Bool
  skip_migrations : Bool
  skip_restart : Bool
  force : Bool
  service_name : String

/-- `validate_bayanat_directory` (`main.py:271-304`): the required marker
files and directories, checked without mutating anything. -/
def validate_bayanat_directory (fs : FS) (app_dir : String) : Bool :=
  fs.isFile (pathJoin (pathJoin app_dir "requirements") "main.txt") &&
    (["docker-compose.yml", "pyproject.toml", "README.md", "run.py"].all
      (fun f => fs.isFile (pathJoin app_dir f))) &&
    (["flask", "nginx", "docs", "tests", "requirements"].all
      (fun d => fs.isDir (pathJoin app_dir d)))

/-- `check_system_requirements` (`main.py:55-67`): interpreter version, then
`git --version` through `run_command` (whose failure raises `Exit(1)`; the
surrounding `except subprocess.CalledProcessError` is unreachable because
`run_command` already converts that exception). -/
def check_system_requirements (env : Env) : List Call × Except Exc Unit :=
  if !env.pyVerOk then ([], Except.error (Exc.exit 1))
  else
    match env.runCmd Cmd.gitVersion with
    | some _ => ([Call.cmd Cmd.gitVersion], Except.ok ())
    | none => ([Call.cmd Cmd.gitVersion], Except.error (Exc.exit 1))

/-- The fallback scan of `backup_database` (`main.py:107-114`): first line
containing the marker whose `split("at")[-1].strip()` path exists wins. -/
def findBackupPath (fs : FS) : List String → Option String
  | [] => none
  | line :: rest =>
    if containsSubstr line "Database backup created successfully at" then
      let p := pyStrip ((line.splitOn "at").getLastD "")
      if fs.pathExists p then some p else findBackupPath fs rest
    else findBackupPath fs rest

/-- `backup_database` (`main.py:70-116`): build the expected path, run
`backup-db --output`, verify the file, fall back to output parsing; never
raises, returns `none` when the backup failed or cannot be located. -/
def backup_database (env : Env) (app_dir : String) (output : Option String) :
    List Call × Option String :=
  let expected := expected_backup_path app_dir output env.now
  let t := [Call.flask (FlaskCmd.backupDb expected)]
  let res := env.flask (FlaskCmd.backupDb expected)
  if !res.1 then (t, none)
  else if env.fs.pathExists expected then (t, some expected)
  else (t, findBackupPath env.fs (res.2.splitOn "\n"))

/-- `rollback_update` (`main.py:119-148`): restore the backup when a
non-empty, existing backup file was recorded, then `git reset --hard
HEAD@{1}` when `.git` exists.  Results are only reported; the git failure is
swallowed by the internal `except Exception`, so this never raises. -/
def rollback_update (env : Env) (app_dir : String)
    (backup_file : Option String) : List Call :=
  (match backup_file with
   | some f =>
     if (f != "") && env.fs.pathExists f then [Call.flask (FlaskCmd.restoreDb f)]
     else []
   | none => []) ++
  (if env.fs.isDir (pathJoin app_dir ".git") then [Call.cmd Cmd.gitResetPrev]
   else [])

/-- `fetch_latest_code` (`main.py:151-162`): clone when `.git` is absent,
otherwise fetch, checkout master, optionally hard-reset to the remote, and
pull; any failing step raises `Exit(1)` and aborts the rest. -/
def fetch_latest_code (env : Env) (app_dir : String) (force : Bool) :
    List Call × Except Exc Unit :=
  if !env.fs.isDir (pathJoin app_dir ".git") then
    match env.runCmd Cmd.gitClone with
    | some _ => ([Call.cmd Cmd.gitClone], Except.ok ())
    | none => ([Call.cmd Cmd.gitClone], Except.error (Exc.exit 1))
  else
    match env.runCmd Cmd.gitFetch with
    | none => ([Call.cmd Cmd.gitFetch], Except.error (Exc.exit 1))
    | some _ =>
      match env.runCmd Cmd.gitCheckout with
      | none => ([Call.cmd Cmd.gitFetch, Call.cmd Cmd.gitCheckout],
          Except.error (Exc.exit 1))
      | some _ =>
        if force then
          match env.runCmd Cmd.gitResetRemote with
          | none => ([Call.cmd Cmd.gitFetch, Call.cmd Cmd.gitCheckout,
              Call.cmd Cmd.gitResetRemote], Except.error (Exc.exit 1))
          | some _ =>
            match env.runCmd Cmd.gitPull with
            | none => ([Call.cmd Cmd.gitFetch, Call.cmd Cmd.gitCheckout,
                Call.cmd Cmd.gitResetRemote, Call.cmd Cmd.gitPull],
                Except.error (Exc.exit 1))
            | some _ => ([Call.cmd Cmd.gitFetch, Call.cmd Cmd.gitCheckout,
                Call.cmd Cmd.gitResetRemote, Call.cmd Cmd.gitPull],
                Except.ok ())
        else
          match env.runCmd Cmd.gitPull with
          | none => ([Call.cmd Cmd.gitFetch, Call.cmd Cmd.gitCheckout,
              Call.cmd Cmd.gitPull], Except.error (Exc.exit 1))
          | some _ => ([Call.cmd Cmd.gitFetch, Call.cmd Cmd.gitCheckout,
              Call.cmd Cmd.gitPull], Except.ok ())

/-- The pip phase of `install_dependencies` (`main.py:176-195`): upgrade
pip, install `requirements/main.txt`, install `requirements/dev.txt` when
present.  Each failing step raises `Exit(1)` (through `run_command`). -/
def pipPhase (env : Env) (app_dir : String) (t0 : List Call) :
    List Call × Except Exc Unit :=
  match env.runCmd Cmd.pipUpgrade with
  | none => (t0 ++ [Call.cmd Cmd.pipUpgrade], Except.error (Exc.exit 1))
  | some _ =>
    match env.runCmd Cmd.pipMain with
    | none => (t0 ++ [Call.cmd Cmd.pipUpgrade, Call.cmd Cmd.pipMain],
        Except.error (Exc.exit 1))
    | some _ =>
      if env.fs.pathExists (pathJoin (pathJoin app_dir "requirements")
          "dev.txt") then
        match env.runCmd Cmd.pipDev with
        | none => (t0 ++ [Call.cmd Cmd.pipUpgrade, Call.cmd Cmd.pipMain,
            Call.cmd Cmd.pipDev], Except.error (Exc.exit 1))
        | some _ => (t0 ++ [Call.cmd Cmd.pipUpgrade, Call.cmd Cmd.pipMain,
            Call.cmd Cmd.pipDev], Except.ok ())
      else (t0 ++ [Call.cmd Cmd.pipUpgrade, Call.cmd Cmd.pipMain],
          Except.ok ())

/-- `install_dependencies` (`main.py:165-195`): create the virtualenv when
the `env` directory is absent, then the pip phase. -/
def install_dependencies (env : Env) (app_dir : String) :
    List Call × Except Exc Unit :=
  if !env.fs.isDir (pathJoin app_dir "env") then
    match env.runCmd Cmd.virtualenvCreate with
    | none => ([Call.cmd Cmd.virtualenvCreate], Except.error (Exc.exit 1))
    | some _ => pipPhase env app_dir [Call.cmd Cmd.virtualenvCreate]
  else pipPhase env app_dir []

/-- `apply_migrations` (`main.py:198-229`): dry-run first; on the
no-pending marker return success without the apply phase; otherwise apply
and classify by the `[Success]` marker in the output, not the exit code.
Never raises (`run_flask_command` converts every exception). -/
def apply_migrations (env : Env) : List Call × (Bool × String) :=
  let dry := env.flask FlaskCmd.migrateDry
  if !dry.1 then ([Call.flask FlaskCmd.migrateDry], (false, dry.2))
  else if containsSubstr dry.2 "No pending migrations to apply" then
    ([Call.flask FlaskCmd.migrateDry], (true, "No pending migrations to apply."))
  else
    let app := env.flask FlaskCmd.migrateApply
    let t := [Call.flask FlaskCmd.migrateDry, Call.flask FlaskCmd.migrateApply]
    if !app.1 then (t, (false, app.2))
    else if containsSubstr app.2 "[Success]" then
      (t, (true, "Migrations applied successfully."))
    else (t, (false, "Migration process failed: " ++ app.2))

/-- `restart_services` (`main.py:232-268`): no-op failure when `systemctl`
is absent (the `which systemctl` probe is read-only and not traced);
otherwise restart and report `returncode == 0`.  Never raises. -/
def restart_services (env : Env) (service_name : String) : List Call × Bool :=
  if !env.systemctlPresent then ([], false)
  else ([Call.systemctl service_name], env.restartExit0)

/-- Path auto-detection of `update` (`main.py:330-337`). -/
def resolvePath (env : Env) (pathArg : Option String) : String :=
  match pathArg with
  | some p => p
  | none =>
    if env.fs.pathExists (pathJoin env.cwd ".bayanat-cli") then
      pathJoin env.cwd "bayanat"
    else env.cwd

/-- The part of `update`'s `try` block up to and including lock acquisition
(`main.py:342-361`): validation, the current-version read (which may raise,
see `get_bayanat_version`), and the lock.  Returns the current version; any
error here leaves `lock_applied = False` and `backup_path = None`. -/
def update_pre (env : Env) (path : String) : List Call × Except Exc String :=
  if !validate_bayanat_directory env.fs path then ([], Except.error (Exc.exit 1))
  else
    match get_bayanat_version env.verBefore with
    | Except.error e => ([], Except.error (Exc.err e))
    | Except.ok cur =>
      let lockRes := env.flask FlaskCmd.lock
      if !lockRes.1 then ([Call.flask FlaskCmd.lock], Except.error (Exc.exit 1))
      else ([Call.flask FlaskCmd.lock], Except.ok cur)

/-- Sequencing inside the `try` block: run `a`; on an exception abort the
rest, otherwise continue, accumulating the trace. -/
def stepBind {α β : Type} (a : List Call × Except Exc α)
    (f : α → List Call × Except Exc β) : List Call × Except Exc β :=
  match a with
  | (t, Except.error e) => (t, Except.error e)
  | (t, Except.ok x) => (t ++ (f x).1, (f x).2)

/-- A step that issues no call and cannot fail. -/
def pureStep {α : Type} (x : α) : List Call × Except Exc α :=
  ([], Except.ok x)

/-- A `run_flask_command` invocation whose result is read but only printed
(`set_version` warning, `get_version` consistency check, `unlock`): the call
is issued and never raises. -/
def flaskIgnore (env : Env) (c : FlaskCmd) : List Call × Except Exc Unit :=
  let _res := env.flask c
  ([Call.flask c], Except.ok ())

/-- Lift a `get_bayanat_version` read into the try block: an exception `e`
escaping it is a generic `Exception` for the handler. -/
def liftVer (r : Except String String) : List Call × Except Exc String :=
  match r with
  | Except.ok v => ([], Except.ok v)
  | Except.error e => ([], Except.error (Exc.err e))

/-- The migration step of `update` (`main.py:392-397`): run
`apply_migrations`; on failure raise `Exception("Migration failed")`. -/
def migrationStep (env : Env) : List Call × Except Exc Unit :=
  let r := apply_migrations env
  if r.2.1 then (r.1, Except.ok ())
  else (r.1, Except.error (Exc.err "Migration failed"))

/-- The restart step of `update` (`main.py:400-402`): the return value of
`restart_services` is ignored, so a restart failure never raises. -/
def restartStep (env : Env) (service_name : String) :
    List Call × Except Exc Unit :=
  let r := restart_services env service_name
  (r.1, Except.ok ())

/-- The body of `update` after a successful backup (`main.py:372-427`): code
sync, the post-sync version read, and — when the version changed or
`--force` — `set_version` (failure only warns), dependency install,
migrations (failure raises), service restart (result ignored), the
`get_version` consistency check (result only printed), and finally the
success-path unlock (result only printed); when the version is unchanged
and `--force` is absent, only the unlock runs. -/
def update_main (env : Env) (path : String) (fl : Flags) (cur : String) :
    List Call × Except Exc Unit :=
  stepBind (if fl.skip_git then pureStep () else fetch_latest_code env path fl.force)
    (fun _ => stepBind (liftVer (get_bayanat_version env.verAfter)) (fun nv =>
      if (cur != nv) || fl.force then
        stepBind (flaskIgnore env (FlaskCmd.setVersion nv)) (fun _ =>
          stepBind (if fl.skip_deps then pureStep ()
              else install_dependencies env path) (fun _ =>
            stepBind (if fl.skip_migrations then pureStep ()
                else migrationStep env) (fun _ =>
              stepBind (if fl.skip_restart then pureStep ()
                  else restartStep env fl.service_name) (fun _ =>
                stepBind (flaskIgnore env FlaskCmd.getVersion) (fun _ =>
                  flaskIgnore env FlaskCmd.unlock)))))
      else flaskIgnore env FlaskCmd.unlock))

/-- The `update` command (`main.py:316-447`).  `typer.Exit` derives from
`Exception`, so the `except Exception` handler catches every failure raised
inside the `try` block — including the validation-failure and lock-failure
`Exit(1)` — then unlocks when `lock_applied` is set, always invokes
`rollback_update`, and re-raises `Exit(1)`. -/
def update (env : Env) (pathArg : Option String) (fl : Flags) :
    List Call × Outcome :=
  let path := resolvePath env pathArg
  match update_pre env path with
  | (t, Except.error _) =>
    (t ++ rollback_update env path none, Outcome.exited 1)
  | (t, Except.ok cur) =>
    match check_system_requirements env with
    | (t2, Except.error _) =>
      (t ++ t2 ++ [Call.flask FlaskCmd.unlock] ++ rollback_update env path none,
        Outcome.exited 1)
    | (t2, Except.ok _) =>
      let (t3, bp) := backup_database env path none
      match update_main env path fl cur with
      | (t4, Except.error _) =>
        (t ++ t2 ++ t3 ++ t4 ++ [Call.flask FlaskCmd.unlock] ++
          rollback_update env path bp, Outcome.exited 1)
      | (t4, Except.ok _) => (t ++ t2 ++ t3 ++ t4, Outcome.success)

/-- Replace the oracle's answer for the `unlock` command. -/
def setUnlock (env : Env) (r : Bool × String) : Env :=
  { env with flask := fun c => if c = FlaskCmd.unlock then r else env.flask c }

/-! ## Concrete runs used as witnesses and counterexamples -/

/-- A filesystem on which every probe succeeds. -/
def fsAll : FS :=
  { isFile := fun _ => true, isDir := fun _ => true, pathExists := fun _ => true }

/-- A filesystem whose only missing marker is `/opt/bayanat/README.md`. -/
def fsNoReadme : FS :=
  { isFile := fun s => s != pathJoin "/opt/bayanat" "README.md",
    isDir := fun _ => true, pathExists := fun _ => true }

/-- A version oracle that resolves `v` through the project manifest. -/
def verManifest (v : String) : VersionEnv :=
  { pkg := SrcRes.cpe, gitTag := SrcRes.cpe, pyprojectIsFile := true,
    toml := TomlRes.ok { name := some "bayanat", version := some v } }

/-- A fixed instant. -/
def dt2025 : DateTime :=
  { year := 2025, month := 6, day := 15, hour := 12, minute := 30, second := 45 }

/-- A later instant on the same day. -/
def dt2025b : DateTime :=
  { year := 2025, month := 6, day := 15, hour := 12, minute := 31, second := 2 }

/-- Flask oracle: everything succeeds; the migration dry run reports the
no-pending marker. -/
def flaskAllOk : FlaskCmd → Bool × String := fun c =>
  match c with
  | FlaskCmd.migrateDry => (true, "No pending migrations to apply")
  | _ => (true, "done")

/-- Flask oracle for a run whose lock acquisition fails. -/
def flaskLockFail : FlaskCmd → Bool × String := fun c =>
  match c with
  | FlaskCmd.lock => (false, "Command failed: already locked")
  | FlaskCmd.migrateDry => (true, "No pending migrations to apply")
  | _ => (true, "done")

/-- Flask oracle with pending migrations whose apply phase exits 0 but
prints no `[Success]` marker. -/
def flaskNoMarker : FlaskCmd → Bool × String := fun c =>
  match c with
  | FlaskCmd.migrateDry => (true, "2 migrations pending")
  | FlaskCmd.migrateApply => (true, "applied 2 migrations")
  | _ => (true, "done")

/-- Flask oracle with pending migrations and a marked successful apply, but
a failing backup command. -/
def flaskBackupFail : FlaskCmd → Bool × String := fun c =>
  match c with
  | FlaskCmd.backupDb _ => (false, "Command failed: pg_dump missing")
  | FlaskCmd.migrateDry => (true, "2 migrations pending")
  | FlaskCmd.migrateApply => (true, "done [Success]")
  | _ => (true, "done")

/-- Flask oracle with a failing backup and a failing migration apply. -/
def flaskBackupFailMigFail : FlaskCmd → Bool × String := fun c =>
  match c with
  | FlaskCmd.backupDb _ => (false, "Command failed: pg_dump missing")
  | FlaskCmd.migrateDry => (true, "2 migrations pending")
  | FlaskCmd.migrateApply => (true, "constraint violation")
  | _ => (true, "done")

/-- A fully healthy run: valid directory, versions 1.2.0 to 1.3.0. -/
def envHealthy : Env :=
  { fs := fsAll, cwd := "/srv", flask := flaskAllOk,
    runCmd := fun _ => some "out", pyVerOk := true, systemctlPresent := true,
    restartExit0 := true, verBefore := verManifest "1.2.0",
    verAfter := verManifest "1.3.0", now := dt2025 }

/-- A healthy directory whose lock acquisition fails. -/
def envLockFail : Env :=
  { envHealthy with flask := flaskLockFail }

/-- A directory failing validation (README missing) but holding `.git`. -/
def envNoReadme : Env :=
  { envHealthy with fs := fsNoReadme }

/-- A healthy run with an unmarked migration apply. -/
def envNoMarker : Env :=
  { envHealthy with flask := flaskNoMarker }

/-- A healthy upgrade run whose backup command fails. -/
def envBackupFail : Env :=
  { envHealthy with flask := flaskBackupFail }

/-- A run with a failed backup and later a failed migration. -/
def envBackupFailMigFail : Env :=
  { envHealthy with flask := flaskBackupFailMigFail }

/-- The `update` defaults: no skip flags, no force, service `bayanat`. -/
def flagsDefault : Flags :=
  { skip_git := false, skip_deps := false, skip_migrations := false,
    skip_restart := false, force := false, service_name := "bayanat" }

/-- Runtime package reports 2.0.0 while the manifest declares 1.0.0. -/
def verPkgVsManifest : VersionEnv :=
  { pkg := SrcRes.ok "2.0.0", gitTag := SrcRes.cpe, pyprojectIsFile := true,
    toml := TomlRes.ok { name := some "bayanat", version := some "1.0.0" } }

/-- Only a `v`-prefixed git tag resolves. -/
def verTagOnly : VersionEnv :=
  { pkg := SrcRes.cpe, gitTag := SrcRes.ok "v1.5.0", pyprojectIsFile := false,
    toml := TomlRes.decodeError }

/-- The interpreter for the runtime-package probe is missing, so
`subprocess.check_output` raises `FileNotFoundError`. -/
def verInterpreterMissing : VersionEnv :=
  { pkg := SrcRes.raised "FileNotFoundError", gitTag := SrcRes.cpe,
    pyprojectIsFile := true,
    toml := TomlRes.ok { name := some "bayanat", version := some "1.0.0" } }

/-! ## Trace observations -/

/-- Is this call the `unlock` flask command? -/
def isUnlockCall : Call → Bool
  | Call.flask FlaskCmd.unlock => true
  | _ => false

/-- Is this call a `restore-db` flask command? -/
def isRestoreCall : Call → Bool
  | Call.flask (FlaskCmd.restoreDb _) => true
  | _ => false

/-- Number of unlock attempts in a trace. -/
def countUnlock (t : List Call) : Nat := t.countP isUnlockCall

/-- Number of database-restore attempts in a trace. -/
def countRestore (t : List Call) : Nat := t.countP isRestoreCall

/-- The milestones of an upgrade session used to state ordering claims:
the `set_version` record, the main dependency install, the migration step
(entered through its dry run), and the service restart. -/
def keyCall : Call → Bool
  | Call.flask (FlaskCmd.setVersion _) => true
  | Call.flask FlaskCmd.migrateDry => true
  | Call.cmd Cmd.pipMain => true
  | Call.systemctl _ => true
  | _ => false

/-- Is this call the mutating migration apply? -/
def isApplyCall : Call → Bool
  | Call.flask FlaskCmd.migrateApply => true
  | _ => false

/-- Number of mutating migration-apply invocations in a trace. -/
def countApply (t : List Call) : Nat := t.countP isApplyCall

/-! ### Lexicographic order facts for the timestamp -/

theorem lexAppendRight {l r1 r2 : List Char} (h : r1 < r2) :
    (l ++ r1) < (l ++ r2) := by
  induction l with
  | nil => exact h
  | cons a t ih => exact List.Lex.cons ih

theorem lexAppendLeft {l1 l2 : List Char} (hlen : l1.length = l2.length)
    (h : l1 < l2) : ∀ r1 r2 : List Char, (l1 ++ r1) < (l2 ++ r2) := by
  induction h with
  | nil => simp at hlen
  | cons h ih =>
    intro r1 r2
    exact List.Lex.cons (ih (by simpa using hlen) r1 r2)
  | rel h =>
    intro r1 r2
    exact List.Lex.rel h

theorem digitChar_lt {a b : Nat} (h : a < b) (hb : b < 10) :
    digitChar a < digitChar b := by
  interval_cases b <;> interval_cases a <;> decide

theorem digitChar_isDigit {a : Nat} (ha : a < 10) :
    (digitChar a).isDigit = true := by
  interval_cases a <;> decide

theorem pad2_lt {a b : Nat} (h : a < b) (hb : b < 100) :
    pad2 a < pad2 b := by
  have hc : a / 10 < b / 10 ∨ (a / 10 = b / 10 ∧ a % 10 < b % 10) := by omega
  rcases hc with hc | ⟨he, hc⟩
  · exact List.Lex.rel (digitChar_lt hc (by omega))
  · rw [pad2, pad2, he]
    exact List.Lex.cons (List.Lex.rel (digitChar_lt hc (by omega)))

theorem pad4_lt {a b : Nat} (h : a < b) (hb : b < 10000) :
    pad4 a < pad4 b := by
  have hc : a / 1000 < b / 1000 ∨ (a / 1000 = b / 1000 ∧
      (a / 100 % 10 < b / 100 % 10 ∨ (a / 100 % 10 = b / 100 % 10 ∧
        (a / 10 % 10 < b / 10 % 10 ∨ (a / 10 % 10 = b / 10 % 10 ∧
          a % 10 < b % 10))))) := by omega
  rcases hc with hc | ⟨h1, hc | ⟨h2, hc | ⟨h3, hc⟩⟩⟩
  · exact List.Lex.rel (digitChar_lt hc (by omega))
  · rw [pad4, pad4, h1]
    exact List.Lex.cons (List.Lex.rel (digitChar_lt hc (by omega)))
  · rw [pad4, pad4, h1, h2]
    exact List.Lex.cons (List.Lex.cons
      (List.Lex.rel (digitChar_lt hc (by omega))))
  · rw [pad4, pad4, h1, h2, h3]
    exact List.Lex.cons (List.Lex.cons (List.Lex.cons
      (List.Lex.rel (digitChar_lt hc (by omega)))))

theorem pad2_length (n : Nat) : (pad2 n).length = 2 := rfl

theorem pad4_length (n : Nat) : (pad4 n).length = 4 := rfl

/-- Chronologically ordered instants render to lexicographically ordered
timestamp strings. -/
theorem strftimeChars_mono {t1 t2 : DateTime} (hb1 : TimeBounds t1)
    (hb2 : TimeBounds t2) (h : dtLt t1 t2) :
    strftimeChars t1 < strftimeChars t2 := by
  obtain ⟨hy1a, hy1b, hmo1a, hmo1b, hd1a, hd1b, hh1, hmi1, hs1⟩ := hb1
  obtain ⟨hy2a, hy2b, hmo2a, hmo2b, hd2a, hd2b, hh2, hmi2, hs2⟩ := hb2
  rcases h with h | ⟨ey, h | ⟨emo, h | ⟨ed, h | ⟨eh, h | ⟨emi, h⟩⟩⟩⟩⟩ <;>
    rw [strftimeChars, strftimeChars]
  · exact lexAppendLeft (by simp [pad4_length]) (pad4_lt h (by omega)) _ _
  · rw [ey]
    exact lexAppendRight
      (lexAppendLeft (by simp [pad2_length]) (pad2_lt h (by omega)) _ _)
  · rw [ey, emo]
    exact lexAppendRight (lexAppendRight
      (lexAppendLeft (by simp [pad2_length]) (pad2_lt h (by omega)) _ _))
  · rw [ey, emo, ed]
    exact lexAppendRight (lexAppendRight (lexAppendRight (List.Lex.cons
      (lexAppendLeft (by simp [pad2_length]) (pad2_lt h (by omega)) _ _))))
  · rw [ey, emo, ed, eh]
    exact lexAppendRight (lexAppendRight (lexAppendRight (List.Lex.cons
      (lexAppendRight
        (lexAppendLeft (by simp [pad2_length]) (pad2_lt h (by omega)) _ _)))))
  · rw [ey, emo, ed, eh, emi]
    exact lexAppendRight (lexAppendRight (lexAppendRight (List.Lex.cons
      (lexAppendRight (lexAppendRight (pad2_lt h (by omega)))))))

theorem pad2_digits {n : Nat} (hn : n < 100) :
    (pad2 n).countP (fun c => c.isDigit) = 2 := by
  rw [pad2]
  simp [List.countP_cons, digitChar_isDigit (by omega : n / 10 < 10),
    digitChar_isDigit (by omega : n % 10 < 10)]

theorem pad4_digits {n : Nat} (hn : n < 10000) :
    (pad4 n).countP (fun c => c.isDigit) = 4 := by
  rw [pad4]
  simp [List.countP_cons, digitChar_isDigit (by omega : n / 1000 < 10),
    digitChar_isDigit (by omega : n / 100 % 10 < 10),
    digitChar_isDigit (by omega : n / 10 % 10 < 10),
    digitChar_isDigit (by omega : n % 10 < 10)]

/-- A bounded timestamp renders with exactly 14 decimal digits. -/
theorem strftime_digitCount {t : DateTime} (hb : TimeBounds t) :
    digitCount (strftimeYmdHMS t) = 14 := by
  obtain ⟨hy1, hy2, hmo1, hmo2, hd1, hd2, hh, hmi, hs⟩ := hb
  rw [digitCount, strftimeYmdHMS, strftimeChars]
  simp only [String.data]
  rw [List.countP_append, List.countP_append, List.countP_append,
    List.countP_cons, List.countP_append, List.countP_append]
  rw [pad4_digits (by omega), pad2_digits (by omega), pad2_digits (by omega),
    pad2_digits (by omega), pad2_digits (by omega), pad2_digits (by omega)]
  decide


@[simp] theorem isUnlockCall_cmd (c : Cmd) : isUnlockCall (Call.cmd c) = false := rfl
@[simp] theorem isUnlockCall_systemctl (s : String) :
    isUnlockCall (Call.systemctl s) = false := rfl
@[simp] theorem isUnlockCall_lock : isUnlockCall (Call.flask FlaskCmd.lock) = false := rfl
@[simp] theorem isUnlockCall_unlock : isUnlockCall (Call.flask FlaskCmd.unlock) = true := rfl
@[simp] theorem isUnlockCall_backupDb (p : String) :
    isUnlockCall (Call.flask (FlaskCmd.backupDb p)) = false := rfl
@[simp] theorem isUnlockCall_restoreDb (p : String) :
    isUnlockCall (Call.flask (FlaskCmd.restoreDb p)) = false := rfl
@[simp] theorem isUnlockCall_setVersion (v : String) :
    isUnlockCall (Call.flask (FlaskCmd.setVersion v)) = false := rfl
@[simp] theorem isUnlockCall_getVersion :
    isUnlockCall (Call.flask FlaskCmd.getVersion) = false := rfl
@[simp] theorem isUnlockCall_migrateDry :
    isUnlockCall (Call.flask FlaskCmd.migrateDry) = false := rfl
@[simp] theorem isUnlockCall_migrateApply :
    isUnlockCall (Call.flask FlaskCmd.migrateApply) = false := rfl

@[simp] theorem isRestoreCall_cmd (c : Cmd) : isRestoreCall (Call.cmd c) = false := rfl
@[simp] theorem isRestoreCall_systemctl (s : String) :
    isRestoreCall (Call.systemctl s) = false := rfl
@[simp] theorem isRestoreCall_lock : isRestoreCall (Call.flask FlaskCmd.lock) = false := rfl
@[simp] theorem isRestoreCall_unlock :
    isRestoreCall (Call.flask FlaskCmd.unlock) = false := rfl
@[simp] theorem isRestoreCall_backupDb (p : String) :
    isRestoreCall (Call.flask (FlaskCmd.backupDb p)) = false := rfl
@[simp] theorem isRestoreCall_restoreDb (p : String) :
    isRestoreCall (Call.flask (FlaskCmd.restoreDb p)) = true := rfl
@[simp] theorem isRestoreCall_setVersion (v : String) :
    isRestoreCall (Call.flask (FlaskCmd.setVersion v)) = false := rfl
@[simp] theorem isRestoreCall_getVersion :
    isRestoreCall (Call.flask FlaskCmd.getVersion) = false := rfl
@[simp] theorem isRestoreCall_migrateDry :
    isRestoreCall (Call.flask FlaskCmd.migrateDry) = false := rfl
@[simp] theorem isRestoreCall_migrateApply :
    isRestoreCall (Call.flask FlaskCmd.migrateApply) = false := rfl

@[simp] theorem keyCall_systemctl (s : String) :
    keyCall (Call.systemctl s) = true := rfl
@[simp] theorem keyCall_lock : keyCall (Call.flask FlaskCmd.lock) = false := rfl
@[simp] theorem keyCall_unlock : keyCall (Call.flask FlaskCmd.unlock) = false := rfl
@[simp] theorem keyCall_backupDb (p : String) :
    keyCall (Call.flask (FlaskCmd.backupDb p)) = false := rfl
@[simp] theorem keyCall_restoreDb (p : String) :
    keyCall (Call.flask (FlaskCmd.restoreDb p)) = false := rfl
@[simp] theorem keyCall_setVersion (v : String) :
    keyCall (Call.flask (FlaskCmd.setVersion v)) = true := rfl
@[simp] theorem keyCall_getVersion :
    keyCall (Call.flask FlaskCmd.getVersion) = false := rfl
@[simp] theorem keyCall_migrateDry :
    keyCall (Call.flask FlaskCmd.migrateDry) = true := rfl
@[simp] theorem keyCall_migrateApply :
    keyCall (Call.flask FlaskCmd.migrateApply) = false := rfl
@[simp] theorem keyCall_gitVersion : keyCall (Call.cmd Cmd.gitVersion) = false := rfl
@[simp] theorem keyCall_gitClone : keyCall (Call.cmd Cmd.gitClone) = false := rfl
@[simp] theorem keyCall_gitFetch : keyCall (Call.cmd Cmd.gitFetch) = false := rfl
@[simp] theorem keyCall_gitCheckout : keyCall (Call.cmd Cmd.gitCheckout) = false := rfl
@[simp] theorem keyCall_gitResetRemote :
    keyCall (Call.cmd Cmd.gitResetRemote) = false := rfl
@[simp] theorem keyCall_gitPull : keyCall (Call.cmd Cmd.gitPull) = false := rfl
@[simp] theorem keyCall_gitResetPrev :
    keyCall (Call.cmd Cmd.gitResetPrev) = false := rfl
@[simp] theorem keyCall_virtualenvCreate :
    keyCall (Call.cmd Cmd.virtualenvCreate) = false := rfl
@[simp] theorem keyCall_pipUpgrade : keyCall (Call.cmd Cmd.pipUpgrade) = false := rfl
@[simp] theorem keyCall_pipMain : keyCall (Call.cmd Cmd.pipMain) = true := rfl
@[simp] theorem keyCall_pipDev : keyCall (Call.cmd Cmd.pipDev) = false := rfl

/-! ## Component trace lemmas -/

theorem countUnlock_append (a b : List Call) :
    countUnlock (a ++ b) = countUnlock a + countUnlock b :=
  List.countP_append ..

theorem countRestore_append (a b : List Call) :
    countRestore (a ++ b) = countRestore a + countRestore b :=
  List.countP_append ..

theorem fetch_countUnlock (env : Env) (p : String) (f : Bool) :
    countUnlock (fetch_latest_code env p f).1 = 0 := by
  unfold fetch_latest_code
  repeat' split
  all_goals rfl

theorem fetch_countRestore (env : Env) (p : String) (f : Bool) :
    countRestore (fetch_latest_code env p f).1 = 0 := by
  unfold fetch_latest_code
  repeat' split
  all_goals rfl

theorem fetch_filterKey (env : Env) (p : String) (f : Bool) :
    (fetch_latest_code env p f).1.filter keyCall = [] := by
  unfold fetch_latest_code
  repeat' split
  all_goals rfl

theorem pipPhase_countUnlock (env : Env) (p : String) (t0 : List Call) :
    countUnlock (pipPhase env p t0).1 = countUnlock t0 := by
  unfold pipPhase
  repeat' split
  all_goals simp [countUnlock_append, countUnlock, List.countP_cons, List.countP_nil]

theorem pipPhase_countRestore (env : Env) (p : String) (t0 : List Call) :
    countRestore (pipPhase env p t0).1 = countRestore t0 := by
  unfold pipPhase
  repeat' split
  all_goals simp [countRestore_append, countRestore, List.countP_cons, List.countP_nil]

theorem install_countUnlock (env : Env) (p : String) :
    countUnlock (install_dependencies env p).1 = 0 := by
  unfold install_dependencies
  split
  · split
    · rfl
    · rw [pipPhase_countUnlock]; rfl
  · rw [pipPhase_countUnlock]; rfl

theorem install_countRestore (env : Env) (p : String) :
    countRestore (install_dependencies env p).1 = 0 := by
  unfold install_dependencies
  split
  · split
    · rfl
    · rw [pipPhase_countRestore]; rfl
  · rw [pipPhase_countRestore]; rfl

theorem pipPhase_ok_filterKey (env : Env) (p : String) (t0 : List Call)
    (hok : (pipPhase env p t0).2 = Except.ok ()) :
    (pipPhase env p t0).1.filter keyCall =
      t0.filter keyCall ++ [Call.cmd Cmd.pipMain] := by
  unfold pipPhase at hok ⊢
  repeat' split at hok
  all_goals simp_all [List.filter_append]

theorem install_ok_filterKey (env : Env) (p : String)
    (hok : (install_dependencies env p).2 = Except.ok ()) :
    (install_dependencies env p).1.filter keyCall = [Call.cmd Cmd.pipMain] := by
  unfold install_dependencies at hok ⊢
  by_cases hdir : (!env.fs.isDir (pathJoin p "env")) = true
  · simp only [if_pos hdir] at hok ⊢
    cases hv : env.runCmd Cmd.virtualenvCreate with
    | none => simp [hv] at hok
    | some v =>
      simp only [hv] at hok ⊢
      rw [pipPhase_ok_filterKey env p _ hok]
      rfl
  · simp only [if_neg hdir] at hok ⊢
    rw [pipPhase_ok_filterKey env p _ hok]
    rfl

theorem apply_countUnlock (env : Env) :
    countUnlock (apply_migrations env).1 = 0 := by
  simp only [apply_migrations]
  repeat' split
  all_goals rfl

theorem apply_countRestore (env : Env) :
    countRestore (apply_migrations env).1 = 0 := by
  simp only [apply_migrations]
  repeat' split
  all_goals rfl

theorem apply_filterKey (env : Env) :
    (apply_migrations env).1.filter keyCall = [Call.flask FlaskCmd.migrateDry] := by
  simp only [apply_migrations]
  repeat' split
  all_goals rfl

theorem restart_countUnlock (env : Env) (s : String) :
    countUnlock (restart_services env s).1 = 0 := by
  unfold restart_services
  split <;> rfl

theorem restart_countRestore (env : Env) (s : String) :
    countRestore (restart_services env s).1 = 0 := by
  unfold restart_services
  split <;> rfl

theorem backup_trace (env : Env) (p : String) (o : Option String) :
    (backup_database env p o).1 =
      [Call.flask (FlaskCmd.backupDb (expected_backup_path p o env.now))] := by
  simp only [backup_database]
  repeat' split
  all_goals rfl

theorem rollback_countUnlock (env : Env) (p : String) (bp : Option String) :
    countUnlock (rollback_update env p bp) = 0 := by
  unfold rollback_update
  repeat' split
  all_goals rfl

theorem rollback_none_countRestore (env : Env) (p : String) :
    countRestore (rollback_update env p none) = 0 := by
  simp only [rollback_update]
  split
  all_goals rfl

theorem pre_countUnlock (env : Env) (p : String) :
    countUnlock (update_pre env p).1 = 0 := by
  simp only [update_pre]
  repeat' split
  all_goals rfl

theorem pre_countRestore (env : Env) (p : String) :
    countRestore (update_pre env p).1 = 0 := by
  simp only [update_pre]
  repeat' split
  all_goals rfl

theorem sysreq_countUnlock (env : Env) :
    countUnlock (check_system_requirements env).1 = 0 := by
  unfold check_system_requirements
  repeat' split
  all_goals rfl

theorem sysreq_countRestore (env : Env) :
    countRestore (check_system_requirements env).1 = 0 := by
  unfold check_system_requirements
  repeat' split
  all_goals rfl

theorem stepBind_fst {α β : Type} (a : List Call × Except Exc α)
    (f : α → List Call × Except Exc β) :
    (stepBind a f).1 = a.1 ++
      (match a.2 with
       | Except.ok x => (f x).1
       | Except.error _ => []) := by
  rcases a with ⟨t, r⟩
  cases r <;> simp [stepBind]

theorem stepBind_snd {α β : Type} (a : List Call × Except Exc α)
    (f : α → List Call × Except Exc β) :
    (stepBind a f).2 =
      (match a.2 with
       | Except.ok x => (f x).2
       | Except.error e => Except.error e) := by
  rcases a with ⟨t, r⟩
  cases r <;> rfl

theorem countUnlock_nil : countUnlock [] = 0 := rfl

theorem countUnlock_cons (c : Call) (t : List Call) :
    countUnlock (c :: t) = (if isUnlockCall c then 1 else 0) + countUnlock t := by
  simp [countUnlock, List.countP_cons, Nat.add_comm]

theorem countRestore_nil : countRestore [] = 0 := rfl

theorem countRestore_cons (c : Call) (t : List Call) :
    countRestore (c :: t) = (if isRestoreCall c then 1 else 0) + countRestore t := by
  simp [countRestore, List.countP_cons, Nat.add_comm]

theorem liftVer_fst (r : Except String String) : (liftVer r).1 = [] := by
  cases r <;> rfl

theorem flaskIgnore_fst (env : Env) (c : FlaskCmd) :
    (flaskIgnore env c).1 = [Call.flask c] := rfl

theorem flaskIgnore_snd (env : Env) (c : FlaskCmd) :
    (flaskIgnore env c).2 = Except.ok () := rfl

theorem migrationStep_countUnlock (env : Env) :
    countUnlock (migrationStep env).1 = 0 := by
  simp only [migrationStep]
  split <;> simp [apply_countUnlock]

theorem migrationStep_countRestore (env : Env) :
    countRestore (migrationStep env).1 = 0 := by
  simp only [migrationStep]
  split <;> simp [apply_countRestore]

theorem restartStep_countUnlock (env : Env) (s : String) :
    countUnlock (restartStep env s).1 = 0 :=
  restart_countUnlock env s

theorem restartStep_snd (env : Env) (s : String) :
    (restartStep env s).2 = Except.ok () := rfl

theorem restartStep_countRestore (env : Env) (s : String) :
    countRestore (restartStep env s).1 = 0 :=
  restart_countRestore env s

/-- Compose the "exactly one unlock on success, none on failure" invariant
through `stepBind`, given an unlock-free head step. -/
theorem stepBind_unlock_inv {α : Type} (a : List Call × Except Exc α)
    (f : α → List Call × Except Exc Unit)
    (ha : countUnlock a.1 = 0)
    (hf : ∀ x, countUnlock (f x).1 =
      (match (f x).2 with
       | Except.ok _ => 1
       | Except.error _ => 0)) :
    countUnlock (stepBind a f).1 =
      (match (stepBind a f).2 with
       | Except.ok _ => 1
       | Except.error _ => 0) := by
  rcases a with ⟨t, r⟩
  cases r with
  | error e => simpa [stepBind] using ha
  | ok x =>
    simp only [stepBind, countUnlock_append, ha, Nat.zero_add]
    exact hf x

theorem stepBind_countRestore {α : Type} (a : List Call × Except Exc α)
    (f : α → List Call × Except Exc Unit)
    (ha : countRestore a.1 = 0)
    (hf : ∀ x, countRestore (f x).1 = 0) :
    countRestore (stepBind a f).1 = 0 := by
  rcases a with ⟨t, r⟩
  cases r with
  | error e => simpa [stepBind] using ha
  | ok x =>
    simp only [stepBind, countRestore_append, ha, Nat.zero_add]
    exact hf x

theorem update_main_countUnlock (env : Env) (path : String) (fl : Flags)
    (cur : String) :
    countUnlock (update_main env path fl cur).1 =
      (match (update_main env path fl cur).2 with
       | Except.ok _ => 1
       | Except.error _ => 0) := by
  rw [update_main]
  refine stepBind_unlock_inv _ _ ?_ ?_
  · split
    · rfl
    · exact fetch_countUnlock env path fl.force
  intro _
  refine stepBind_unlock_inv _ _ (liftVer_fst _ ▸ rfl) ?_
  intro nv
  split
  · refine stepBind_unlock_inv _ _ rfl ?_
    intro _
    refine stepBind_unlock_inv _ _ ?_ ?_
    · split
      · rfl
      · exact install_countUnlock env path
    intro _
    refine stepBind_unlock_inv _ _ ?_ ?_
    · split
      · rfl
      · exact migrationStep_countUnlock env
    intro _
    refine stepBind_unlock_inv _ _ ?_ ?_
    · split
      · rfl
      · exact restartStep_countUnlock env fl.service_name
    intro _
    rfl
  · rfl

theorem update_main_countRestore (env : Env) (path : String) (fl : Flags)
    (cur : String) :
    countRestore (update_main env path fl cur).1 = 0 := by
  rw [update_main]
  refine stepBind_countRestore _ _ ?_ ?_
  · split
    · rfl
    · exact fetch_countRestore env path fl.force
  intro _
  refine stepBind_countRestore _ _ (liftVer_fst _ ▸ rfl) ?_
  intro nv
  split
  · refine stepBind_countRestore _ _ rfl ?_
    intro _
    refine stepBind_countRestore _ _ ?_ ?_
    · split
      · rfl
      · exact install_countRestore env path
    intro _
    refine stepBind_countRestore _ _ ?_ ?_
    · split
      · rfl
      · exact migrationStep_countRestore env
    intro _
    refine stepBind_countRestore _ _ ?_ ?_
    · split
      · rfl
      · exact restartStep_countRestore env fl.service_name
    intro _
    rfl
  · rfl

theorem update_pre_ok (env : Env) (path cur : String)
    (hval : validate_bayanat_directory env.fs path = true)
    (hv1 : get_bayanat_version env.verBefore = Except.ok cur)
    (hlock : (env.flask FlaskCmd.lock).1 = true) :
    update_pre env path = ([Call.flask FlaskCmd.lock], Except.ok cur) := by
  simp [update_pre, hval, hv1, hlock]

theorem sysreq_ok (env : Env) (gv : String) (hpy : env.pyVerOk = true)
    (hgitv : env.runCmd Cmd.gitVersion = some gv) :
    check_system_requirements env = ([Call.cmd Cmd.gitVersion], Except.ok ()) := by
  simp [check_system_requirements, hpy, hgitv]

/-- The trace and result of the post-backup body in a full successful
upgrade: sync, `set_version`, dependency install, migrations, restart,
version verification, unlock — in that order. -/
theorem update_main_spec (env : Env) (path : String) (fl : Flags)
    (cur nv : String)
    (hsg : fl.skip_git = false) (hsd : fl.skip_deps = false)
    (hsm : fl.skip_migrations = false) (hsr : fl.skip_restart = false)
    (hv2 : get_bayanat_version env.verAfter = Except.ok nv)
    (hdiff : ((cur != nv) || fl.force) = true)
    (hfetchOk : (fetch_latest_code env path fl.force).2 = Except.ok ())
    (hdeps : (install_dependencies env path).2 = Except.ok ())
    (hmig : (apply_migrations env).2.1 = true)
    (hsc : env.systemctlPresent = true) :
    update_main env path fl cur =
      ((fetch_latest_code env path fl.force).1 ++
        ([Call.flask (FlaskCmd.setVersion nv)] ++
          ((install_dependencies env path).1 ++
            ((apply_migrations env).1 ++
              ([Call.systemctl fl.service_name] ++
                ([Call.flask FlaskCmd.getVersion] ++
                  [Call.flask FlaskCmd.unlock]))))),
        Except.ok ()) := by
  rcases hf : fetch_latest_code env path fl.force with ⟨tf, rf⟩
  rw [hf] at hfetchOk
  simp only at hfetchOk
  subst hfetchOk
  rcases hd : install_dependencies env path with ⟨td, rd⟩
  rw [hd] at hdeps
  simp only at hdeps
  subst hdeps
  simp only [update_main, hsg, Bool.false_eq_true, if_false, hf, stepBind,
    liftVer, hv2, hdiff, if_true, hsd, hsm, hsr, hd, migrationStep, hmig,
    restartStep, restart_services, hsc, Bool.not_true, flaskIgnore, pureStep,
    List.nil_append, List.append_nil]

/-! ## Claim theorems -/

/-- C1. For every run of the update command in which the application lock is
successfully acquired (`lock_applied` becomes true, i.e. the pre-lock phase
returns normally), exactly one `unlock` flask invocation appears in the
run's trace — whether the session ends in success, in a handled failure, or
in an unexpected exception, and even when rollback itself fails (rollback
results are ignored by the handler).  Moreover the oracle's answer to the
`unlock` command influences nothing observable: the whole run (trace and
outcome) is unchanged under any unlock response, so an unlock failure
cannot make an otherwise-successful run fail. -/
theorem update_unlock_exactly_once (env : Env) (pathArg : Option String)
    (fl : Flags) :
    (∀ cur, (update_pre env (resolvePath env pathArg)).2 = Except.ok cur →
      countUnlock (update env pathArg fl).1 = 1) ∧
    (∀ r : Bool × String, update (setUnlock env r) pathArg fl =
      update env pathArg fl) := by
  constructor
  · intro cur hpre
    simp only [update]
    rcases hP : update_pre env (resolvePath env pathArg) with ⟨t1, r1⟩
    rw [hP] at hpre
    simp only at hpre
    subst hpre
    have ht1 : countUnlock t1 = 0 := by
      have h := pre_countUnlock env (resolvePath env pathArg)
      rw [hP] at h
      exact h
    simp only [hP]
    rcases hS : check_system_requirements env with ⟨t2, r2⟩
    have ht2 : countUnlock t2 = 0 := by
      have h := sysreq_countUnlock env
      rw [hS] at h
      exact h
    rcases hB : backup_database env (resolvePath env pathArg) none with ⟨t3, bp⟩
    have ht3 : countUnlock t3 = 0 := by
      have h := backup_trace env (resolvePath env pathArg) none
      rw [hB] at h
      simp only at h
      rw [h]
      rfl
    rcases hM : update_main env (resolvePath env pathArg) fl cur with ⟨t4, r4⟩
    have ht4 := update_main_countUnlock env (resolvePath env pathArg) fl cur
    rw [hM] at ht4
    simp only at ht4
    cases r2 with
    | error e =>
      simp [countUnlock_append, countUnlock_cons, countUnlock_nil, ht1, ht2,
        rollback_countUnlock]
    | ok u =>
      simp only [hB, hM]
      cases r4 with
      | error e =>
        simp only at ht4
        simp [countUnlock_append, countUnlock_cons, countUnlock_nil, ht1, ht2,
          ht3, ht4, rollback_countUnlock]
      | ok u4 =>
        simp only at ht4
        simp [countUnlock_append, ht1, ht2, ht3, ht4]
  · intro r
    rfl

/-- Witness for C1: a fully healthy run acquires the lock and its trace
contains exactly one unlock. -/
theorem update_unlock_exactly_once_witness :
    countUnlock (update envHealthy (some "/opt/bayanat") flagsDefault).1 = 1 :=
  (update_unlock_exactly_once envHealthy (some "/opt/bayanat") flagsDefault).1
    "1.2.0" rfl

/-- C2 (failing-input evaluation).  When lock acquisition fails on a valid
checkout holding `.git`, the process does exit with code 1 and issues no
backup, sync, dependency-install, migration or restart call — but it does
not halt without mutating: the `except Exception` handler catches the
`typer.Exit(1)` and calls `rollback_update`, which runs the mutating
`git reset --hard HEAD@{1}`.  The claim "no other mutating call is ever
issued after that point" is therefore violated by the code. -/
theorem update_lock_failure_runs_git_revert :
    update envLockFail (some "/opt/bayanat") flagsDefault =
      ([Call.flask FlaskCmd.lock, Call.cmd Cmd.gitResetPrev],
        Outcome.exited 1) := rfl

/-- C3. In every run with differing versions (or `--force`) and no skip
flags, whose sync, dependency install and migrations succeed, the milestone
calls of the trace are exactly: record the new version (`set_version`),
then dependency install, then migrations, then service restart — so the
version is recorded strictly before dependency install, and the three
phases follow in order. -/
theorem update_upgrade_order (env : Env) (path : String) (fl : Flags)
    (cur nv gv : String)
    (hval : validate_bayanat_directory env.fs path = true)
    (hv1 : get_bayanat_version env.verBefore = Except.ok cur)
    (hlock : (env.flask FlaskCmd.lock).1 = true)
    (hpy : env.pyVerOk = true)
    (hgitv : env.runCmd Cmd.gitVersion = some gv)
    (hsg : fl.skip_git = false) (hsd : fl.skip_deps = false)
    (hsm : fl.skip_migrations = false) (hsr : fl.skip_restart = false)
    (hv2 : get_bayanat_version env.verAfter = Except.ok nv)
    (hdiff : ((cur != nv) || fl.force) = true)
    (hfetchOk : (fetch_latest_code env path fl.force).2 = Except.ok ())
    (hdeps : (install_dependencies env path).2 = Except.ok ())
    (hmig : (apply_migrations env).2.1 = true)
    (hsc : env.systemctlPresent = true) :
    (update env (some path) fl).1.filter keyCall =
      [Call.flask (FlaskCmd.setVersion nv), Call.cmd Cmd.pipMain,
       Call.flask FlaskCmd.migrateDry, Call.systemctl fl.service_name] := by
  have hpre := update_pre_ok env path cur hval hv1 hlock
  have hsys := sysreq_ok env gv hpy hgitv
  have hmain := update_main_spec env path fl cur nv hsg hsd hsm hsr hv2 hdiff
    hfetchOk hdeps hmig hsc
  simp only [update, resolvePath, hpre, hsys]
  rcases hB : backup_database env path none with ⟨t3, bp⟩
  have ht3 : t3 = [Call.flask (FlaskCmd.backupDb
      (expected_backup_path path none env.now))] := by
    have h := backup_trace env path none
    rw [hB] at h
    exact h
  simp only [hB, hmain, ht3]
  simp [List.filter_append, fetch_filterKey,
    install_ok_filterKey env path hdeps, apply_filterKey]

/-- Witness for C3: the healthy 1.2.0-to-1.3.0 run. -/
theorem update_upgrade_order_witness :
    (update envHealthy (some "/opt/bayanat") flagsDefault).1.filter keyCall =
      [Call.flask (FlaskCmd.setVersion "1.3.0"), Call.cmd Cmd.pipMain,
       Call.flask FlaskCmd.migrateDry, Call.systemctl "bayanat"] :=
  update_upgrade_order envHealthy "/opt/bayanat" flagsDefault
    "1.2.0" "1.3.0" "out" rfl rfl rfl rfl rfl rfl rfl rfl rfl rfl rfl rfl rfl
    (by decide) rfl

/-- C4 (failing-input evaluation).  When directory validation fails (here:
`README.md` missing) on a directory holding `.git`, the command does exit
with code 1 and no lock is ever attempted (no `lock` call in the trace) —
but the claim that no rollback action is performed is violated: the
`except Exception` handler catches the validation `typer.Exit(1)` and calls
`rollback_update`, which skips the database restore (no backup recorded)
yet runs the version-control revert `git reset --hard HEAD@{1}`. -/
theorem update_validation_failure_runs_git_revert :
    update envNoReadme (some "/opt/bayanat") flagsDefault =
      ([Call.cmd Cmd.gitResetPrev], Outcome.exited 1) := rfl

/-- C5 (counterexample).  The claim orders the resolver manifest-first with
`v`-stripped tags.  The code does neither: with a runtime-reported package
version available the manifest is ignored, and a resolved tag is returned
verbatim with its `v`. -/
theorem resolver_priority_counterexample :
    get_bayanat_version verPkgVsManifest = Except.ok "2.0.0" ∧
    resolver_claimed verPkgVsManifest = "1.0.0" ∧
    get_bayanat_version verTagOnly = Except.ok "v1.5.0" ∧
    resolver_claimed verTagOnly = "1.5.0" := by
  refine ⟨congrArg Except.ok (by decide), rfl,
    congrArg Except.ok (by decide), by decide⟩

/-- C5 (amended).  The resolver tries, in priority order: (a) the runtime
package's reported version, (b) the most recent version-control tag
verbatim (no `v` stripping), (c) the manifest's declared version when the
manifest names project `bayanat`, and finally the sentinel `"unknown"`;
a source failing with an uncaught exception stops the walk and propagates
instead. -/
theorem resolver_follows_amended_priority (env : VersionEnv) :
    get_bayanat_version env = resolver_amended env := by
  rcases env with ⟨pkg, tag, isf, toml⟩
  cases pkg <;> cases tag <;> cases toml <;> cases isf <;>
    simp_all [get_bayanat_version, resolver_amended, firstResolved, pkgSource,
      tagSource, manifestSource] <;>
    (repeat' split) <;> simp_all [firstResolved]

/-- C6.  When the dry run succeeds and reports the no-pending marker,
`apply_migrations` returns success with exactly that message and issues only
the dry-run call; two invocations in succession behave identically and
their combined trace holds no mutating apply call at all. -/
theorem apply_migrations_idempotent (env : Env)
    (h1 : (env.flask FlaskCmd.migrateDry).1 = true)
    (h2 : containsSubstr (env.flask FlaskCmd.migrateDry).2
      "No pending migrations to apply" = true) :
    apply_migrations env =
      ([Call.flask FlaskCmd.migrateDry],
        (true, "No pending migrations to apply.")) ∧
    countApply ((apply_migrations env).1 ++ (apply_migrations env).1) = 0 := by
  have he : apply_migrations env =
      ([Call.flask FlaskCmd.migrateDry],
        (true, "No pending migrations to apply.")) := by
    simp [apply_migrations, h1, h2]
  exact ⟨he, by rw [he]; rfl⟩

/-- Witness for C6: the healthy oracle, whose dry run prints the marker. -/
theorem apply_migrations_idempotent_witness :
    apply_migrations envHealthy =
      ([Call.flask FlaskCmd.migrateDry],
        (true, "No pending migrations to apply.")) ∧
    countApply ((apply_migrations envHealthy).1 ++
      (apply_migrations envHealthy).1) = 0 :=
  apply_migrations_idempotent envHealthy rfl (by decide)

/-- C7.  When the dry run reports pending migrations and the apply phase
exits 0 but its output lacks the `[Success]` marker, `apply_migrations`
classifies the run as failed and embeds the raw apply output in the
returned failure message. -/
theorem apply_migrations_marker_required (env : Env)
    (h1 : (env.flask FlaskCmd.migrateDry).1 = true)
    (h2 : containsSubstr (env.flask FlaskCmd.migrateDry).2
      "No pending migrations to apply" = false)
    (h3 : (env.flask FlaskCmd.migrateApply).1 = true)
    (h4 : containsSubstr (env.flask FlaskCmd.migrateApply).2
      "[Success]" = false) :
    apply_migrations env =
      ([Call.flask FlaskCmd.migrateDry, Call.flask FlaskCmd.migrateApply],
        (false, "Migration process failed: " ++
          (env.flask FlaskCmd.migrateApply).2)) := by
  simp [apply_migrations, h1, h2, h3, h4]

/-- Witness for C7: an apply that exits 0 printing no marker. -/
theorem apply_migrations_marker_required_witness :
    apply_migrations envNoMarker =
      ([Call.flask FlaskCmd.migrateDry, Call.flask FlaskCmd.migrateApply],
        (false, "Migration process failed: applied 2 migrations")) :=
  apply_migrations_marker_required envNoMarker rfl (by decide) rfl (by decide)

/-- C8 (counterexample).  With the virtualenv interpreter missing, the
runtime-package probe raises `FileNotFoundError`; the code catches only
`CalledProcessError`, so the exception escapes `get_bayanat_version` (no
string is returned) even though the manifest would have resolved. -/
theorem resolver_raises_counterexample :
    get_bayanat_version verInterpreterMissing =
      Except.error "FileNotFoundError" := rfl

/-- C8 (amended).  As long as every failing source fails with an exception
kind the code catches — `CalledProcessError` from the package and git-tag
probes, a decode error, missing key, different project name, or a missing
file for the manifest — `get_bayanat_version` always returns a string;
any other exception propagates (see the counterexample). -/
theorem resolver_total_without_fatal (env : VersionEnv)
    (h : noFatalSource env) :
    ∃ s, get_bayanat_version env = Except.ok s := by
  obtain ⟨h1, h2, h3⟩ := h
  rcases env with ⟨pkg, tag, isf, toml⟩
  cases pkg <;> cases tag <;> cases toml <;> cases isf <;>
    simp_all [isRaisedSrc, isRaisedToml, get_bayanat_version] <;>
    (repeat' split) <;> simp_all [get_bayanat_version]

/-- Witness for C8: every source swallowed except the resolving manifest. -/
theorem resolver_total_without_fatal_witness :
    ∃ s, get_bayanat_version (verManifest "1.0.0") = Except.ok s :=
  resolver_total_without_fatal (verManifest "1.0.0") ⟨rfl, rfl, rfl⟩

/-- C9.  With no explicit output path, the expected backup file path that
`backup_database` computes is `<app_dir>/backups/<ts>_bayanat_backup.dump`,
where `<ts>` is the `strftime "%Y%m%d_%H%M%S"` rendering: it contains
exactly 14 decimal digits, and it is sortable — chronological order of
instants is lexicographic order of the rendered timestamps. -/
theorem backup_default_path_shape (app_dir : String) (t1 t2 : DateTime)
    (hb1 : TimeBounds t1) (hb2 : TimeBounds t2) :
    expected_backup_path app_dir none t1 =
      app_dir ++ "/backups/" ++ (strftimeYmdHMS t1 ++ "_bayanat_backup.dump") ∧
    digitCount (strftimeYmdHMS t1) = 14 ∧
    (dtLt t1 t2 → (strftimeYmdHMS t1).data < (strftimeYmdHMS t2).data) := by
  refine ⟨?_, strftime_digitCount hb1, fun h => strftimeChars_mono hb1 hb2 h⟩
  show pathJoin (pathJoin app_dir "backups")
      (strftimeYmdHMS t1 ++ "_bayanat_backup.dump") = _
  simp only [pathJoin]
  rw [String.append_assoc app_dir "/" "backups",
    show ("/" : String) ++ "backups" = "/backups" from by decide,
    String.append_assoc app_dir "/backups" "/",
    show ("/backups" : String) ++ "/" = "/backups/" from by decide]

/-- Witness for C9 at two concrete instants a minute apart. -/
theorem backup_default_path_shape_witness :
    expected_backup_path "/opt/app" none dt2025 =
      "/opt/app" ++ "/backups/" ++
        (strftimeYmdHMS dt2025 ++ "_bayanat_backup.dump") ∧
    digitCount (strftimeYmdHMS dt2025) = 14 ∧
    (strftimeYmdHMS dt2025).data < (strftimeYmdHMS dt2025b).data :=
  ⟨(backup_default_path_shape "/opt/app" dt2025 dt2025b (by decide)
      (by decide)).1,
   (backup_default_path_shape "/opt/app" dt2025 dt2025b (by decide)
      (by decide)).2.1,
   (backup_default_path_shape "/opt/app" dt2025 dt2025b (by decide)
      (by decide)).2.2 (by decide)⟩

/-- When the migration apply fails, the post-backup body ends with the
`Exception("Migration failed")` error. -/
theorem update_main_mig_fail (env : Env) (path : String) (fl : Flags)
    (cur nv : String)
    (hsg : fl.skip_git = false) (hsd : fl.skip_deps = false)
    (hsm : fl.skip_migrations = false)
    (hv2 : get_bayanat_version env.verAfter = Except.ok nv)
    (hdiff : ((cur != nv) || fl.force) = true)
    (hfetchOk : (fetch_latest_code env path fl.force).2 = Except.ok ())
    (hdeps : (install_dependencies env path).2 = Except.ok ())
    (hmigF : (apply_migrations env).2.1 = false) :
    (update_main env path fl cur).2 =
      Except.error (Exc.err "Migration failed") := by
  rcases hf : fetch_latest_code env path fl.force with ⟨tf, rf⟩
  rw [hf] at hfetchOk
  simp only at hfetchOk
  subst hfetchOk
  rcases hd : install_dependencies env path with ⟨td, rd⟩
  rw [hd] at hdeps
  simp only at hdeps
  subst hdeps
  simp only [update_main, hsg, Bool.false_eq_true, if_false, hf, stepBind,
    liftVer, hv2, hdiff, if_true, hsd, hsm, hd, migrationStep, hmigF,
    flaskIgnore, pureStep]

/-- C10.  A backup that returns no artifact does not abort the update.
Part one: in a run where `backup_database` yields `none` and every later
step succeeds, the session completes successfully and still performs code
sync, `set_version`, dependency install, migrations and restart — the
whole trace is spelled out.  Part two: in such a run where migrations later
fail, the session exits with code 1 and the rollback issues no `restore-db`
call anywhere in the trace (the database-restore step is skipped since no
backup artifact was recorded). -/
theorem update_backup_none_behavior :
    (∀ (env : Env) (path : String) (fl : Flags) (cur nv gv : String),
      validate_bayanat_directory env.fs path = true →
      get_bayanat_version env.verBefore = Except.ok cur →
      (env.flask FlaskCmd.lock).1 = true →
      env.pyVerOk = true →
      env.runCmd Cmd.gitVersion = some gv →
      fl.skip_git = false → fl.skip_deps = false →
      fl.skip_migrations = false → fl.skip_restart = false →
      get_bayanat_version env.verAfter = Except.ok nv →
      ((cur != nv) || fl.force) = true →
      (fetch_latest_code env path fl.force).2 = Except.ok () →
      (install_dependencies env path).2 = Except.ok () →
      (apply_migrations env).2.1 = true →
      env.systemctlPresent = true →
      (backup_database env path none).2 = none →
      update env (some path) fl =
        ([Call.flask FlaskCmd.lock] ++ [Call.cmd Cmd.gitVersion] ++
          [Call.flask (FlaskCmd.backupDb
            (expected_backup_path path none env.now))] ++
          ((fetch_latest_code env path fl.force).1 ++
            ([Call.flask (FlaskCmd.setVersion nv)] ++
              ((install_dependencies env path).1 ++
                ((apply_migrations env).1 ++
                  ([Call.systemctl fl.service_name] ++
                    ([Call.flask FlaskCmd.getVersion] ++
                      [Call.flask FlaskCmd.unlock])))))),
          Outcome.success)) ∧
    (∀ (env : Env) (path : String) (fl : Flags) (cur nv gv : String),
      validate_bayanat_directory env.fs path = true →
      get_bayanat_version env.verBefore = Except.ok cur →
      (env.flask FlaskCmd.lock).1 = true →
      env.pyVerOk = true →
      env.runCmd Cmd.gitVersion = some gv →
      fl.skip_git = false → fl.skip_deps = false →
      fl.skip_migrations = false →
      get_bayanat_version env.verAfter = Except.ok nv →
      ((cur != nv) || fl.force) = true →
      (fetch_latest_code env path fl.force).2 = Except.ok () →
      (install_dependencies env path).2 = Except.ok () →
      (apply_migrations env).2.1 = false →
      (backup_database env path none).2 = none →
      (update env (some path) fl).2 = Outcome.exited 1 ∧
      countRestore (update env (some path) fl).1 = 0) := by
  constructor
  · intro env path fl cur nv gv hval hv1 hlock hpy hgitv hsg hsd hsm hsr hv2
      hdiff hfetchOk hdeps hmig hsc hbNone
    have hpre := update_pre_ok env path cur hval hv1 hlock
    have hsys := sysreq_ok env gv hpy hgitv
    have hmain := update_main_spec env path fl cur nv hsg hsd hsm hsr hv2
      hdiff hfetchOk hdeps hmig hsc
    simp only [update, resolvePath, hpre, hsys]
    rcases hB : backup_database env path none with ⟨t3, bp⟩
    have ht3 : t3 = [Call.flask (FlaskCmd.backupDb
        (expected_backup_path path none env.now))] := by
      have h := backup_trace env path none
      rw [hB] at h
      exact h
    simp only [hB, hmain, ht3]
  · intro env path fl cur nv gv hval hv1 hlock hpy hgitv hsg hsd hsm hv2
      hdiff hfetchOk hdeps hmigF hbNone
    have hpre := update_pre_ok env path cur hval hv1 hlock
    have hsys := sysreq_ok env gv hpy hgitv
    simp only [update, resolvePath, hpre, hsys]
    rcases hB : backup_database env path none with ⟨t3, bp⟩
    have hbp : bp = none := by
      rw [hB] at hbNone
      exact hbNone
    subst hbp
    have ht3 : t3 = [Call.flask (FlaskCmd.backupDb
        (expected_backup_path path none env.now))] := by
      have h := backup_trace env path none
      rw [hB] at h
      exact h
    rcases hM : update_main env path fl cur with ⟨t4, r4⟩
    have hr4 : r4 = Except.error (Exc.err "Migration failed") := by
      have h := update_main_mig_fail env path fl cur nv hsg hsd hsm hv2 hdiff
        hfetchOk hdeps hmigF
      rw [hM] at h
      exact h
    subst hr4
    have ht4 : countRestore t4 = 0 := by
      have h := update_main_countRestore env path fl cur
      rw [hM] at h
      exact h
    simp only [hB, hM]
    refine ⟨by first | rfl | trivial, ?_⟩
    simp [countRestore_append, countRestore_cons, countRestore_nil, ht3, ht4,
      rollback_none_countRestore]

/-- Witness for C10: part one at a healthy run with a failing backup
command, part two at the same run whose migration apply also fails. -/
theorem update_backup_none_behavior_witness :
    update envBackupFail (some "/opt/bayanat") flagsDefault =
      ([Call.flask FlaskCmd.lock] ++ [Call.cmd Cmd.gitVersion] ++
        [Call.flask (FlaskCmd.backupDb
          (expected_backup_path "/opt/bayanat" none envBackupFail.now))] ++
        ((fetch_latest_code envBackupFail "/opt/bayanat" false).1 ++
          ([Call.flask (FlaskCmd.setVersion "1.3.0")] ++
            ((install_dependencies envBackupFail "/opt/bayanat").1 ++
              ((apply_migrations envBackupFail).1 ++
                ([Call.systemctl "bayanat"] ++
                  ([Call.flask FlaskCmd.getVersion] ++
                    [Call.flask FlaskCmd.unlock])))))),
        Outcome.success) ∧
    ((update envBackupFailMigFail (some "/opt/bayanat") flagsDefault).2 =
        Outcome.exited 1 ∧
      countRestore
        (update envBackupFailMigFail (some "/opt/bayanat") flagsDefault).1 =
        0) :=
  ⟨update_backup_none_behavior.1 envBackupFail "/opt/bayanat" flagsDefault
      "1.2.0" "1.3.0" "out" rfl rfl rfl rfl rfl rfl rfl rfl rfl rfl
      (by decide) rfl rfl (by decide) rfl rfl,
   update_backup_none_behavior.2 envBackupFailMigFail "/opt/bayanat"
      flagsDefault "1.2.0" "1.3.0" "out" rfl rfl rfl rfl rfl rfl rfl rfl rfl
      (by decide) rfl rfl (by decide) rfl⟩

end BayanatCli
